import Mathlib

/-!
Shallow embedding of the core of the `postgres_scanner` bridge
(binary COPY wire codec, decimal header reader, predicate projector,
bind-time type mapping, and the parallel page-range coordinator),
together with theorems settling the specification claims against it.

All multi-byte wire integers are big-endian.  Bytes are modelled as
natural numbers; hypotheses `b < 256` are added where byte-ness matters.
Fallible code paths (C++ `throw`) are modelled with `Except PGError`.
-/

deriving instance DecidableEq for Except

namespace PostgresScanner

/-- The error kinds thrown by the embedded code paths. -/
inductive PGError where
  | invalidHeader        -- "Unable to read binary COPY data from Postgres, invalid header"
  | wrongMagic           -- "Expected Postgres binary COPY header, got something else"
  | numericNaInf         -- NotImplementedException "Postgres numeric NA/Inf"
  | decimalTooShort      -- InvalidInputException "Need at least 8 bytes to read a Postgres decimal"
  | unsupportedArrayDim  -- NotImplementedException "Only one-dimensional Postgres arrays are supported"
  | unsupportedExpressionType -- NotImplementedException "Unsupported expression type"
  | unsupportedFilterType     -- InternalException "Unsupported table filter type"
  deriving DecidableEq, Repr

/-! ## Big-endian loads (PostgresConversion::LoadInteger / ntohl / ntohs) -/

/-- Big-endian load of a 2-byte unsigned integer from the front of a byte list. -/
def load2 (bs : List Nat) : Nat :=
  match bs with
  | b0 :: b1 :: _ => b0 * 256 + b1
  | [b0] => b0 * 256
  | [] => 0

/-- Big-endian load of a 4-byte unsigned integer from the front of a byte list. -/
def load4 (bs : List Nat) : Nat :=
  match bs with
  | b0 :: b1 :: b2 :: b3 :: _ => ((b0 * 256 + b1) * 256 + b2) * 256 + b3
  | _ => 0

/-- Reinterpret an unsigned `w`-bit value as a signed (twos-complement) integer. -/
def toSigned (w : Nat) (n : Nat) : Int :=
  if n < 2 ^ (w - 1) then (n : Int) else (n : Int) - 2 ^ w

/-- `LoadInteger<int16_t>`: big-endian signed 16-bit load. -/
def loadI16 (bs : List Nat) : Int := toSigned 16 (load2 bs)

/-- `LoadInteger<int32_t>`: big-endian signed 32-bit load. -/
def loadI32 (bs : List Nat) : Int := toSigned 32 (load4 bs)

/-! ## PostgresBinaryBuffer::CheckHeader

The C++ source compares the first 11 bytes of the message against the
string literal `"PGCOPY\\n\\377\\r\\n\\0"` — whose characters are the
ASCII letters with LITERAL backslashes (`\\` in C source denotes one
backslash character) — and throws when `memcmp` returns 0, i.e. when the
bytes EQUAL that literal. -/

/-- The first 11 characters of the C string literal
`"PGCOPY\\n\\377\\r\\n\\0"` as it appears in the source:
`P G C O P Y \ n \ 3 7`. -/
def checkHeaderLiteralBytes : List Nat :=
  [0x50, 0x47, 0x43, 0x4F, 0x50, 0x59, 0x5C, 0x6E, 0x5C, 0x33, 0x37]

/-- The genuine 11-byte binary COPY magic signature
`PGCOPY\n\xff\r\n\0` from the wire protocol. -/
def pgcopyMagic : List Nat :=
  [0x50, 0x47, 0x43, 0x4F, 0x50, 0x59, 0x0A, 0xFF, 0x0D, 0x0A, 0x00]

/-- `PostgresBinaryBuffer::CheckHeader`: requires `len ≥ 19`
(11-byte magic + 8 bytes of flags/extension length), throws
`wrongMagic` when `memcmp(buffer_ptr, "PGCOPY\\n\\377\\r\\n\\0", 11)`
returns zero (`!memcmp` — i.e. when the first 11 bytes equal the
literal), and otherwise advances the cursor by 19 bytes. -/
def checkHeader (len : Int) (buf : List Nat) : Except PGError Nat :=
  if len < 19 then .error .invalidHeader
  else if buf.take 11 = checkHeaderLiteralBytes then .error .wrongMagic
  else .ok 19

/-! ## Decimal (numeric) header: ReadDecimalConfig -/

def NUMERIC_POS : Nat := 0x0000
def NUMERIC_NEG : Nat := 0x4000
def NUMERIC_NAN : Nat := 0xC000
def NUMERIC_PINF : Nat := 0xD000
def NUMERIC_NINF : Nat := 0xF000

structure PostgresDecimalConfig where
  scale : Nat
  ndigits : Nat
  weight : Int
  is_negative : Bool
  deriving DecidableEq, Repr

/-- `ReadDecimalConfig`: reads `(u16 ndigits, i16 weight, u16 sign, u16 dscale)`
from the front of the field payload.  Throws `numericNaInf` when the sign
word is NOT one of `{POS, NAN, PINF, NINF, NEG}`; otherwise accepts,
with `is_negative := (sign == NUMERIC_NEG)`. -/
def ReadDecimalConfig (bs : List Nat) : Except PGError PostgresDecimalConfig :=
  let ndigits := load2 bs
  let weight := loadI16 (bs.drop 2)
  let sign := load2 (bs.drop 4)
  if ¬(sign = NUMERIC_POS ∨ sign = NUMERIC_NAN ∨ sign = NUMERIC_PINF ∨
       sign = NUMERIC_NINF ∨ sign = NUMERIC_NEG) then
    .error .numericNaInf
  else
    .ok ⟨load2 (bs.drop 6), ndigits, weight, decide (sign = NUMERIC_NEG)⟩

/-- `ProcessValue`, `LogicalTypeId::DECIMAL` case, entry guard: a field
payload shorter than `sizeof(uint16_t) * 4 = 8` bytes raises
`InvalidInputException` before `ReadDecimalConfig` touches the payload. -/
def processDecimalValue (value_len : Int) (bs : List Nat) :
    Except PGError PostgresDecimalConfig :=
  if value_len < 8 then .error .decimalTooShort
  else ReadDecimalConfig bs

/-! ## Array (LIST) envelope: ProcessValue, LogicalTypeId::LIST case

The envelope words read, in order: `flag_one`, `flag_two`, `value_oid`,
`array_length`, `array_dim`.  `value_oid == typelem` is only a debug
assertion (`D_ASSERT`); the release code performs no check.  The
only throwing check is `array_dim != 1` — on the FIFTH word. -/

/-- Result of decoding a list envelope: the number of elements the code
will go on to read (0 for the empty-list shortcuts). -/
def processListEnvelope (value_len : Int) (bs : List Nat) : Except PGError Nat :=
  if value_len < 1 then .ok 0
  else
    let flag_one := load4 bs
    let _flag_two := load4 (bs.drop 4)
    if flag_one = 0 then .ok 0
    else
      let _value_oid := load4 (bs.drop 8)
      let array_length := load4 (bs.drop 12)
      let array_dim := load4 (bs.drop 16)
      if array_dim ≠ 1 then .error .unsupportedArrayDim
      else .ok array_length

/-! ## ROWID synthesis: PostgresScan, COLUMN_IDENTIFIER_ROW_ID branch

`page_index` is loaded with `LoadInteger<int32_t>` and `row_in_page`
with `LoadInteger<int16_t>` — both SIGNED — widened to `int64_t`, and
combined as `(page_index << 16LL) + row_in_page`. -/

/-- Decode the 6-byte ctid field into the emitted signed 64-bit row id. -/
def decodeRowId (bs : List Nat) : Int :=
  let page_index := loadI32 bs
  let row_in_page := loadI16 (bs.drop 4)
  page_index * 65536 + row_in_page

/-! ## Scan coordinator: PostgresMaxThreads / PostgresParallelStateNext -/

def POSTGRES_TID_MAX : Nat := 4294967295

/-- `PostgresMaxThreads`: `pages_approx / pages_per_task` (integer
division, no lower clamp). -/
def PostgresMaxThreads (pages_approx pages_per_task : Nat) : Nat :=
  pages_approx / pages_per_task

/-- `PostgresParallelStateNext`: given the shared cursor `page_idx`,
either hands out the page-range task `(task_min, task_max)` and the
advanced cursor, or reports no more work (cursor unchanged).  The upper
bound is promoted to `POSTGRES_TID_MAX` when `page_idx + pages_per_task`
meets or exceeds `pages_approx`. -/
def PostgresParallelStateNext (pages_approx pages_per_task page_idx : Nat) :
    Option (Nat × Nat) × Nat :=
  if page_idx < pages_approx then
    let page_max0 := page_idx + pages_per_task
    let page_max := if page_max0 ≥ pages_approx then POSTGRES_TID_MAX else page_max0
    (some (page_idx, page_max), page_idx + pages_per_task)
  else
    (none, page_idx)

/-! ## Predicate projector: TransformComparision / TransformFilter

`TableFilter` is modelled as a mutual inductive (a filter tree whose
conjunction nodes hold a list of children, mirroring
`ConjunctionAndFilter::child_filters`); `OTHER` stands for any DuckDB
filter type outside the five handled cases, and `ExpressionType.other`
for any comparison operator outside the six handled cases. -/

inductive ExpressionType where
  | COMPARE_EQUAL
  | COMPARE_NOTEQUAL
  | COMPARE_LESSTHAN
  | COMPARE_GREATERTHAN
  | COMPARE_LESSTHANOREQUALTO
  | COMPARE_GREATERTHANOREQUALTO
  | other
  deriving DecidableEq, Repr

/-- `TransformComparision`: maps the six supported comparison expression
types to their SQL operator text; the `default:` case throws
`NotImplementedException("Unsupported expression type")`. -/
def TransformComparision : ExpressionType → Except PGError String
  | .COMPARE_EQUAL => .ok "="
  | .COMPARE_NOTEQUAL => .ok "!="
  | .COMPARE_LESSTHAN => .ok "<"
  | .COMPARE_GREATERTHAN => .ok ">"
  | .COMPARE_LESSTHANOREQUALTO => .ok "<="
  | .COMPARE_GREATERTHANOREQUALTO => .ok ">="
  | .other => .error .unsupportedExpressionType

mutual
inductive TableFilter where
  | IS_NULL
  | IS_NOT_NULL
  | CONJUNCTION_AND (child_filters : TableFilterList)
  | CONJUNCTION_OR (child_filters : TableFilterList)
  | CONSTANT_COMPARISON (comparison_type : ExpressionType) (constant : String)
  | OTHER
  deriving Repr

inductive TableFilterList where
  | nil
  | cons (head : TableFilter) (tail : TableFilterList)
  deriving Repr
end

/-- The single-quote character, built by code point to keep source text
free of raw apostrophes. -/
def squoteChar : Char := Char.ofNat 39

def squote : String := String.singleton squoteChar

/-- The constant rendering in the `CONSTANT_COMPARISON` case: a quote,
then `constant.ToString()` verbatim, then a quote — NO escaping of
embedded quotes or backslashes (the source carries a TODO acknowledging
this). -/
def constantString (c : String) : String := squote ++ c ++ squote

mutual
/-- `TransformFilter`: translates one table filter to a SQL fragment;
`IS_NULL` / `IS_NOT_NULL` / `CONJUNCTION_AND` / `CONJUNCTION_OR` /
`CONSTANT_COMPARISON` are handled, everything else throws
`InternalException("Unsupported table filter type")`. -/
def TransformFilter (column_name : String) : TableFilter → Except PGError String
  | .IS_NULL => .ok (column_name ++ " IS NULL")
  | .IS_NOT_NULL => .ok (column_name ++ " IS NOT NULL")
  | .CONJUNCTION_AND cs => CreateExpression column_name cs "AND"
  | .CONJUNCTION_OR cs => CreateExpression column_name cs "OR"
  | .CONSTANT_COMPARISON ty c =>
    match TransformComparision ty with
    | .error e => .error e
    | .ok op => .ok (column_name ++ " " ++ op ++ " " ++ constantString c)
  | .OTHER => .error .unsupportedFilterType

/-- The loop body of `CreateExpression`: transforms each child filter in
order, aborting at the first failure (C++ exception semantics). -/
def TransformFilterEntries (column_name : String) : TableFilterList → Except PGError (List String)
  | .nil => .ok []
  | .cons f fs =>
    match TransformFilter column_name f with
    | .error e => .error e
    | .ok s =>
      match TransformFilterEntries column_name fs with
      | .error e => .error e
      | .ok ss => .ok (s :: ss)

/-- `CreateExpression`: transforms the children then joins them with the
conjunction operator inside parentheses. -/
def CreateExpression (column_name : String) (filters : TableFilterList) (op : String) :
    Except PGError String :=
  match TransformFilterEntries column_name filters with
  | .error e => .error e
  | .ok entries => .ok ("(" ++ String.intercalate (" " ++ op ++ " ") entries ++ ")")
end

/-- The filter-string construction of `PostgresInitInternal`: empty filter
set yields the empty string; otherwise each `(quoted column name, filter)`
entry is transformed and the results are joined as
`" AND " ++ Join(entries, " AND ")`.  Any transform failure propagates
(there is no handler on this path). -/
def PostgresFilterEntries : List (String × TableFilter) → Except PGError (List String)
  | [] => .ok []
  | (col, f) :: rest =>
    match TransformFilter col f with
    | .error e => .error e
    | .ok s =>
      match PostgresFilterEntries rest with
      | .error e => .error e
      | .ok ss => .ok (s :: ss)

def PostgresFilterString (filters : List (String × TableFilter)) : Except PGError String :=
  if filters.isEmpty then .ok ""
  else
    match PostgresFilterEntries filters with
    | .error e => .error e
    | .ok entries => .ok (" AND " ++ String.intercalate " AND " entries)

mutual
/-- A filter tree contains a node outside the supported set: a filter
type other than the five handled ones, or a constant comparison whose
operator is outside the six handled ones. -/
def containsUnsupported : TableFilter → Bool
  | .IS_NULL => false
  | .IS_NOT_NULL => false
  | .CONJUNCTION_AND cs => containsUnsupportedList cs
  | .CONJUNCTION_OR cs => containsUnsupportedList cs
  | .CONSTANT_COMPARISON ty _ => ty = ExpressionType.other
  | .OTHER => true

def containsUnsupportedList : TableFilterList → Bool
  | .nil => false
  | .cons f fs => containsUnsupported f || containsUnsupportedList fs
end

/-- Scanner for the inside of a single-quoted SQL literal: every quote
character must either be doubled (the SQL escape) or close the literal
as its final character. -/
def litScan : List Char → Bool
  | [] => false
  | c :: rest =>
    if c = squoteChar then
      match rest with
      | [] => true
      | c2 :: rest2 => c2 = squoteChar && litScan rest2
    else litScan rest

/-- A string is one well-formed single-quoted SQL literal: it opens with
a quote and every interior quote is doubled up to the closing quote. -/
def isWellFormedLiteral (s : String) : Bool :=
  match s.data with
  | c :: rest => c = squoteChar && litScan rest
  | [] => false

/-- A constant value whose text contains an embedded single quote: the
three characters a, quote, b. -/
def quoteyConstant : String := "a" ++ squote ++ "b"

/-! ## Type mapper and bind: DuckDBType2 / PrepareBind -/

structure PostgresTypeInfo where
  nspname : String
  typname : String
  typtype : String
  deriving DecidableEq, Repr

inductive LogicalType where
  | BOOLEAN
  | SMALLINT
  | INTEGER
  | BIGINT
  | UINTEGER
  | FLOAT
  | DOUBLE
  | DECIMAL (width : Nat) (scale : Int)
  | VARCHAR
  | DATE
  | BLOB
  | TIME
  | TIME_TZ
  | TIMESTAMP
  | TIMESTAMP_TZ
  | INTERVAL
  | UUID
  | ENUM (nspname typname : String)
  | LIST (child : LogicalType)
  | INVALID
  deriving DecidableEq, Repr

/-- `StringUtil::StartsWith(pgtypename, "_")`: true exactly when the
name is nonempty and its first character is an underscore. -/
def startsWithUnderscore (s : String) : Bool :=
  match s.data with
  | [] => false
  | c :: _ => c = Char.ofNat 95

/-- The decimal typmod decode of `DuckDBType2`, `numeric` branch with
`atttypmod ≠ -1`.  `atttypmod - sizeof(int32_t)` is C++ `size_t`
arithmetic (the `int` operand converts to unsigned 64-bit), modelled as
arithmetic modulo `2 ^ 64`. -/
def decimalWidthScale (atttypmod : Int) : Nat × Int :=
  let m : Nat := ((atttypmod - 4) % (2 ^ 64 : Int)).toNat
  let width : Nat := (m >>> 16) &&& 0xffff
  let scale : Int := (((m &&& 0x7ff) ^^^ 1024 : Nat) : Int) - 1024
  (width, scale)

/-- The scalar (non-array) branch chain of `DuckDBType2`: the enum check
(`typtype == "e"`; the label set is fetched from the server via
`enum_range` and is external data, so the embedded type records only the
enum identity) followed by the type-name ladder, ending in `INVALID`. -/
def DuckDBTypeScalar (type_info : PostgresTypeInfo) (atttypmod : Int) : LogicalType :=
  if type_info.typtype = "e" then .ENUM type_info.nspname type_info.typname
  else if type_info.typname = "bool" then .BOOLEAN
  else if type_info.typname = "int2" then .SMALLINT
  else if type_info.typname = "int4" then .INTEGER
  else if type_info.typname = "int8" then .BIGINT
  else if type_info.typname = "oid" then .UINTEGER
  else if type_info.typname = "float4" then .FLOAT
  else if type_info.typname = "float8" then .DOUBLE
  else if type_info.typname = "numeric" then
    if atttypmod = -1 then .DOUBLE
    else
      let ws := decimalWidthScale atttypmod
      .DECIMAL ws.1 ws.2
  else if type_info.typname = "char" ∨ type_info.typname = "bpchar" ∨
          type_info.typname = "varchar" ∨ type_info.typname = "text" ∨
          type_info.typname = "jsonb" ∨ type_info.typname = "json" then .VARCHAR
  else if type_info.typname = "date" then .DATE
  else if type_info.typname = "bytea" then .BLOB
  else if type_info.typname = "time" then .TIME
  else if type_info.typname = "timetz" then .TIME_TZ
  else if type_info.typname = "timestamp" then .TIMESTAMP
  else if type_info.typname = "timestamptz" then .TIMESTAMP_TZ
  else if type_info.typname = "interval" then .INTERVAL
  else if type_info.typname = "uuid" then .UUID
  else .INVALID

/-- `DuckDBType2`: a type whose name starts with `_` is a Postgres array
and recurses on the element info (with a null element pointer, so the
recursion is one level deep; a nested array element would dereference a
null pointer in the source and cannot occur in catalog data — modelled
as `INVALID`). -/
def DuckDBType2 (type_info : PostgresTypeInfo) (atttypmod : Int)
    (ele_info : Option PostgresTypeInfo) : LogicalType :=
  if startsWithUnderscore type_info.typname then
    match ele_info with
    | some ei =>
      if startsWithUnderscore ei.typname then .INVALID
      else .LIST (DuckDBTypeScalar ei atttypmod)
    | none => .INVALID
  else DuckDBTypeScalar type_info atttypmod

/-- The per-column body of `PostgresScanFunction::PrepareBind`: computes
the DuckDB type, sets `needs_cast` exactly when it is `INVALID`, and
records `VARCHAR` as the bound type in that case (the unsupported type
is cast to varchar on read). -/
def bindColumn (type_info : PostgresTypeInfo) (atttypmod : Int)
    (ele_info : Option PostgresTypeInfo) : LogicalType × Bool :=
  let duckdb_type := DuckDBType2 type_info atttypmod ele_info
  let needs_cast := duckdb_type = LogicalType.INVALID
  (if needs_cast then .VARCHAR else duckdb_type, needs_cast)

/-- Modelled from the spec: `KeywordHelper::WriteQuoted` is part of the
external DuckDB library (not in this repository); the spec says only
"All identifiers are quoted", so quoting wraps the name in the given
quote character. -/
def writeQuoted (s : String) (q : Char) : String :=
  String.singleton q ++ s ++ String.singleton q

/-- The projection-expression construction of `PostgresInitInternal` for
one non-rowid column: the quoted column name, with `::VARCHAR` appended
exactly when the `needs_cast` flag of the column is set. -/
def projectColumn (name : String) (needs_cast : Bool) : String :=
  writeQuoted name (Char.ofNat 34) ++ (if needs_cast then "::VARCHAR" else "")

/-! ## Helper lemmas -/

mutual
theorem transformFilter_error_of_unsupported (col : String) :
    (f : TableFilter) → containsUnsupported f = true →
    ∃ e, TransformFilter col f = Except.error e
  | .CONJUNCTION_AND cs, h => by
    simp [containsUnsupported] at h
    obtain ⟨e, he⟩ := transformEntries_error_of_unsupported col cs h
    exact ⟨e, by simp [TransformFilter, CreateExpression, he]⟩
  | .CONJUNCTION_OR cs, h => by
    simp [containsUnsupported] at h
    obtain ⟨e, he⟩ := transformEntries_error_of_unsupported col cs h
    exact ⟨e, by simp [TransformFilter, CreateExpression, he]⟩
  | .CONSTANT_COMPARISON ty c, h => by
    simp [containsUnsupported] at h
    subst h
    exact ⟨.unsupportedExpressionType, by simp [TransformFilter, TransformComparision]⟩
  | .OTHER, _ => ⟨.unsupportedFilterType, by simp [TransformFilter]⟩

theorem transformEntries_error_of_unsupported (col : String) :
    (fs : TableFilterList) → containsUnsupportedList fs = true →
    ∃ e, TransformFilterEntries col fs = Except.error e
  | .cons f fs, h => by
    simp [containsUnsupportedList] at h
    rcases h with h | h
    · obtain ⟨e, he⟩ := transformFilter_error_of_unsupported col f h
      exact ⟨e, by simp [TransformFilterEntries, he]⟩
    · obtain ⟨e, he⟩ := transformEntries_error_of_unsupported col fs h
      cases hf : TransformFilter col f with
      | error e2 => exact ⟨e2, by simp [TransformFilterEntries, hf]⟩
      | ok s => exact ⟨e, by simp [TransformFilterEntries, hf, he]⟩
end

theorem postgresFilterEntries_error_of_unsupported (filters : List (String × TableFilter))
    (col : String) (f : TableFilter) (hmem : (col, f) ∈ filters)
    (h : containsUnsupported f = true) :
    ∃ e, PostgresFilterEntries filters = Except.error e := by
  induction filters with
  | nil => cases hmem
  | cons p rest ih =>
    obtain ⟨c0, f0⟩ := p
    rcases List.mem_cons.mp hmem with heq | hmem2
    · obtain ⟨rfl, rfl⟩ := Prod.mk.injEq .. ▸ heq
      obtain ⟨e, he⟩ := transformFilter_error_of_unsupported col f h
      exact ⟨e, by simp [PostgresFilterEntries, he]⟩
    · cases hf : TransformFilter c0 f0 with
      | error e2 => exact ⟨e2, by simp [PostgresFilterEntries, hf]⟩
      | ok s =>
        obtain ⟨e, he⟩ := ih hmem2
        exact ⟨e, by simp [PostgresFilterEntries, hf, he]⟩

theorem shiftLeft16_or_eq_add (a t : Nat) (h : t < 2 ^ 16) :
    a <<< 16 ||| t = a * 2 ^ 16 + t := by
  rw [Nat.shiftLeft_eq, Nat.mul_comm, ← Nat.mul_add_lt_is_or h a]

/-! ## Claim theorems -/

/-- C1: the claim says a first message whose first 11 bytes differ from
the magic `PGCOPY\n\xff\r\n\0` raises a protocol error.  The code
compares against the mangled literal (with literal backslash characters)
and throws when `memcmp` returns ZERO, so a 19-byte message of zeros —
which differs from the magic — is ACCEPTED and the cursor advanced by
19; the genuine magic header is also accepted.  The header is never
validated. -/
theorem C1_header_not_validated :
    checkHeader 19 (List.replicate 19 0) = .ok 19 ∧
    (List.replicate 19 0).take 11 ≠ pgcopyMagic ∧
    checkHeader 19 (pgcopyMagic ++ List.replicate 8 0) = .ok 19 ∧
    checkHeader 19 (checkHeaderLiteralBytes ++ List.replicate 8 0) = .error .wrongMagic ∧
    checkHeader 18 (List.replicate 18 0) = .error .invalidHeader := by
  refine ⟨by decide, by decide, by decide, by decide, by decide⟩

/-- C2: the claim says sign words NAN (0xC000), PINF (0xD000) and NINF
(0xF000) raise an UnsupportedValue error.  The guard in the code ACCEPTS all
five known sign words — including NaN and the infinities, which then
decode as ordinary numbers — and throws only for sign words outside the
set, contradicting its own error text "Postgres numeric NA/Inf". -/
theorem C2_nan_inf_accepted :
    ReadDecimalConfig [0, 0, 0, 0, 0xC0, 0, 0, 0] = .ok ⟨0, 0, 0, false⟩ ∧
    ReadDecimalConfig [0, 0, 0, 0, 0xD0, 0, 0, 0] = .ok ⟨0, 0, 0, false⟩ ∧
    ReadDecimalConfig [0, 0, 0, 0, 0xF0, 0, 0, 0] = .ok ⟨0, 0, 0, false⟩ ∧
    ReadDecimalConfig [0, 0, 0, 0, 0x40, 0, 0, 0] = .ok ⟨0, 0, 0, true⟩ ∧
    ReadDecimalConfig [0, 0, 0, 0, 0x00, 0, 0, 0] = .ok ⟨0, 0, 0, false⟩ ∧
    ReadDecimalConfig [0, 0, 0, 0, 0x80, 0, 0, 0] = .error .numericNaInf := by
  refine ⟨by decide, by decide, by decide, by decide, by decide, by decide⟩

/-- C3: the claim says embedded single quotes and backslashes of the
constant are escaped so the rendered fragment is a well-formed literal.
The code renders the constant between two quotes verbatim (its own TODO
admits the missing escaping): for the constant a-quote-b the produced literal has
an unescaped interior quote and is not well formed, while a quote-free
constant stays well formed. -/
theorem C3_constant_not_escaped :
    TransformFilter "x" (.CONSTANT_COMPARISON .COMPARE_EQUAL quoteyConstant)
      = .ok ("x = " ++ constantString quoteyConstant) ∧
    isWellFormedLiteral (constantString quoteyConstant) = false ∧
    isWellFormedLiteral (constantString "ab") = true := by
  refine ⟨by simp [TransformFilter, TransformComparision], by decide, by decide⟩

/-- C4 counterexample: the claim says an unsupported filter is omitted
from pushdown and the scan proceeds unfiltered.  The filter-string
construction instead propagates the error — it does not return a
successful (filterless) string. -/
theorem C4_counterexample :
    PostgresFilterString [("x", TableFilter.OTHER)] = .error .unsupportedFilterType := by
  simp [PostgresFilterString, PostgresFilterEntries, TransformFilter]

/-- C4 (amended): a predicate containing any node outside the supported
set is rejected with an error (NotImplementedException for an
unsupported comparison operator, InternalException for an unsupported
filter type), and the error propagates unhandled out of the
filter-string construction: the scan aborts instead of dropping the
filter and proceeding unfiltered. -/
theorem C4_unsupported_predicate_aborts (filters : List (String × TableFilter))
    (col : String) (f : TableFilter) (hmem : (col, f) ∈ filters)
    (h : containsUnsupported f = true) :
    ∃ e, PostgresFilterString filters = Except.error e := by
  obtain ⟨e, he⟩ := postgresFilterEntries_error_of_unsupported filters col f hmem h
  have hne : filters ≠ [] := by rintro rfl; cases hmem
  exact ⟨e, by simp [PostgresFilterString, List.isEmpty_iff, hne, he]⟩

/-- C4 witness: a filter set holding one unsupported filter makes the
construction fail. -/
theorem C4_witness :
    ∃ e, PostgresFilterString [("x", TableFilter.OTHER)] = Except.error e :=
  C4_unsupported_predicate_aborts [("x", TableFilter.OTHER)] "x" TableFilter.OTHER
    (by simp) (by simp [containsUnsupported])

/-- C5 counterexample: a remote column of base type `text` binds to
target type VARCHAR (TEXT) with `needs_cast = false`, so "target type is
TEXT iff needs_text_cast" fails in the right-to-left-only direction. -/
theorem C5_counterexample :
    ¬(((bindColumn ⟨"pg_catalog", "text", "b"⟩ (-1) none).1 = LogicalType.VARCHAR) ↔
      (bindColumn ⟨"pg_catalog", "text", "b"⟩ (-1) none).2 = true) := by
  decide

/-- C5 (amended): every column with `needs_cast = true` has target type
VARCHAR (TEXT), and its projection expression is the quoted column name
with `::VARCHAR` appended; the converse fails because natively textual
remote types bind to VARCHAR with `needs_cast = false`. -/
theorem C5_needs_cast_varchar (type_info : PostgresTypeInfo) (atttypmod : Int)
    (ele_info : Option PostgresTypeInfo) (name : String)
    (h : (bindColumn type_info atttypmod ele_info).2 = true) :
    (bindColumn type_info atttypmod ele_info).1 = LogicalType.VARCHAR ∧
    projectColumn name (bindColumn type_info atttypmod ele_info).2 =
      writeQuoted name (Char.ofNat 34) ++ "::VARCHAR" := by
  simp only [bindColumn, decide_eq_true_eq] at h ⊢
  refine ⟨by simp [h], by simp [projectColumn, h]⟩

/-- C5 witness: a column of the unmapped base type `point` needs the
cast and binds to VARCHAR. -/
theorem C5_witness :
    (bindColumn ⟨"pg_catalog", "point", "b"⟩ (-1) none).2 = true ∧
    (bindColumn ⟨"pg_catalog", "point", "b"⟩ (-1) none).1 = LogicalType.VARCHAR ∧
    projectColumn "v" (bindColumn ⟨"pg_catalog", "point", "b"⟩ (-1) none).2 =
      writeQuoted "v" (Char.ofNat 34) ++ "::VARCHAR" :=
  ⟨by decide, C5_needs_cast_varchar ⟨"pg_catalog", "point", "b"⟩ (-1) none "v" (by decide)⟩

/-- C6 counterexample: with one approximate page and two pages per task
the reported maximum worker count is 0, not `max 1 (1 / 2) = 1`. -/
theorem C6_counterexample :
    PostgresMaxThreads 1 2 = 0 ∧ ¬(PostgresMaxThreads 1 2 = max 1 (1 / 2)) := by
  decide

/-- C6 (amended): the maximum worker count is the plain integer division
`approx_pages / pages_per_task` with no lower clamp: it agrees with
`max 1 (approx_pages / pages_per_task)` exactly when `pages_per_task ≤
approx_pages`, and is 0 when `pages_per_task` exceeds `approx_pages`. -/
theorem C6_max_threads (approx per : Nat) (ha : 1 ≤ approx) (hp : 1 ≤ per) :
    PostgresMaxThreads approx per = approx / per ∧
    (PostgresMaxThreads approx per = max 1 (approx / per) ↔ per ≤ approx) ∧
    (approx < per → PostgresMaxThreads approx per = 0) := by
  refine ⟨rfl, ?_, fun hlt => Nat.div_eq_of_lt hlt⟩
  unfold PostgresMaxThreads
  constructor
  · intro hmax
    by_contra hgt
    push_neg at hgt
    rw [Nat.div_eq_of_lt hgt] at hmax
    simp at hmax
  · intro hle
    have h1 : 1 ≤ approx / per := (Nat.one_le_div_iff hp).mpr hle
    omega

/-- C6 witness: four approximate pages with eight pages per task report
zero workers. -/
theorem C6_witness :
    PostgresMaxThreads 4 8 = 4 / 8 ∧
    (PostgresMaxThreads 4 8 = max 1 (4 / 8) ↔ 8 ≤ 4) ∧
    (4 < 8 → PostgresMaxThreads 4 8 = 0) :=
  C6_max_threads 4 8 (by decide) (by decide)

/-- C7: the claim says a non-empty array envelope whose first word
(`ndim_flag`) differs from 1 raises UnsupportedArrayDimensionality.  The
code instead tests the FIFTH envelope word (the lower
bound): a two-dimensional envelope (first word 2) whose lower bound is 1
decodes without error, while a one-dimensional envelope with lower
bound 0 is wrongly rejected.  The `element_oid` equality is only a debug
assertion.  (The first-word-zero empty case does hold.) -/
theorem C7_dimension_check_wrong_word :
    processListEnvelope 28
      [0,0,0,2, 0,0,0,0, 0,0,0,23, 0,0,0,2, 0,0,0,1] = .ok 2 ∧
    load4 [0,0,0,2] ≠ 0 ∧ load4 [0,0,0,2] ≠ 1 ∧
    processListEnvelope 20
      [0,0,0,1, 0,0,0,0, 0,0,0,23, 0,0,0,2, 0,0,0,0] = .error .unsupportedArrayDim ∧
    processListEnvelope 12 [0,0,0,0, 0,0,0,0, 0,0,0,23] = .ok 0 := by
  refine ⟨by decide, by decide, by decide, by decide, by decide⟩

/-- C8 counterexample: for a ctid with page 0 and tuple 0x8000 the code
emits -32768 (the tuple half is loaded as a SIGNED 16-bit integer and
sign-extended), while the claimed formula `(page << 16) | tuple` gives
32768. -/
theorem C8_counterexample :
    decodeRowId [0, 0, 0, 0, 0x80, 0] = -32768 ∧
    ((load4 [0, 0, 0, 0]) <<< 16 ||| load2 [0x80, 0] : Nat) = 32768 ∧
    decodeRowId [0, 0, 0, 0, 0x80, 0] ≠ ((32768 : Nat) : Int) := by
  refine ⟨by decide, by decide, by decide⟩

/-- C8 (amended): the page and tuple halves of the 6-byte ctid are
loaded as signed big-endian 32-bit and 16-bit integers, sign-extended to
64 bits, and combined as `page * 2 ^ 16 + tuple`; this coincides with
the unsigned `(page << 16) | tuple` whenever `page < 2 ^ 31` and
`tuple < 2 ^ 15`, and distinct 6-byte ctids still yield distinct row
ids. -/
theorem C8_rowid (b1 b2 : List Nat) (h1 : b1.length = 6) (h2 : b2.length = 6)
    (hb1 : ∀ x ∈ b1, x < 256) (hb2 : ∀ x ∈ b2, x < 256) :
    (load4 b1 < 2 ^ 31 → load2 (b1.drop 4) < 2 ^ 15 →
      decodeRowId b1 = ((load4 b1) <<< 16 ||| load2 (b1.drop 4) : Nat)) ∧
    (decodeRowId b1 = decodeRowId b2 → b1 = b2) := by
  match b1, h1 with
  | [a0, a1, a2, a3, a4, a5], _ => ?_
  match b2, h2 with
  | [c0, c1, c2, c3, c4, c5], _ => ?_
  simp only [List.mem_cons, List.not_mem_nil, or_false, forall_eq_or_imp, forall_eq] at hb1 hb2
  obtain ⟨ha0, ha1, ha2, ha3, ha4, ha5⟩ := hb1
  obtain ⟨hc0, hc1, hc2, hc3, hc4, hc5⟩ := hb2
  constructor
  · intro hp ht
    rw [shiftLeft16_or_eq_add _ _ (by
      simp only [load2, List.drop] at *
      omega)]
    simp only [decodeRowId, loadI32, loadI16, load4, load2, toSigned, List.drop] at *
    split_ifs at * <;> push_cast <;> omega
  · intro heq
    simp only [decodeRowId, loadI32, loadI16, load4, load2, toSigned, List.drop] at heq
    simp only [List.cons.injEq, and_true]
    split_ifs at heq <;> omega

/-- C8 witness: two concrete ctids, page 0 with tuples 1 and 2. -/
theorem C8_witness :
    (load4 [0,0,0,0,0,1] < 2 ^ 31 → load2 ([0,0,0,0,0,1].drop 4) < 2 ^ 15 →
      decodeRowId [0,0,0,0,0,1] =
        ((load4 [0,0,0,0,0,1]) <<< 16 ||| load2 ([0,0,0,0,0,1].drop 4) : Nat)) ∧
    (decodeRowId [0,0,0,0,0,1] = decodeRowId [0,0,0,0,0,2] →
      [0,0,0,0,0,1] = [0,0,0,0,0,2]) :=
  C8_rowid [0,0,0,0,0,1] [0,0,0,0,0,2] (by decide) (by decide) (by decide) (by decide)

/-- C9: the coordinator hands out page-range tasks exactly as claimed:
no task (cursor unchanged) once the cursor has reached `approx_pages`;
otherwise a task starting at the cursor whose upper bound is
`cursor + pages_per_task`, promoted to `POSTGRES_TID_MAX` exactly when
that bound meets or exceeds `approx_pages`, with the cursor advanced by
`pages_per_task`; and for `approx_pages = 1` the very first call
produces the single task with upper bound `POSTGRES_TID_MAX` and every
call at a later cursor produces nothing. -/
theorem C9_next_task (approx per cursor : Nat) (ha : 1 ≤ approx) (hp : 1 ≤ per) :
    (approx ≤ cursor → PostgresParallelStateNext approx per cursor = (none, cursor)) ∧
    (cursor < approx →
      PostgresParallelStateNext approx per cursor =
        (some (cursor, if approx ≤ cursor + per then POSTGRES_TID_MAX else cursor + per),
         cursor + per)) ∧
    (PostgresParallelStateNext 1 per 0 = (some (0, POSTGRES_TID_MAX), per) ∧
      ∀ n, 1 ≤ n → PostgresParallelStateNext 1 per n = (none, n)) := by
  refine ⟨fun hge => ?_, fun hlt => ?_, ?_, fun n hn => ?_⟩
  · simp [PostgresParallelStateNext, Nat.not_lt.mpr hge]
  · simp only [PostgresParallelStateNext, if_pos hlt]
  · simp [PostgresParallelStateNext, hp]
  · simp [PostgresParallelStateNext, Nat.not_lt.mpr hn]

/-- C9 witness: a single-page table scanned with 1000 pages per task. -/
theorem C9_witness :
    (1 ≤ (0 : Nat) → PostgresParallelStateNext 1 1000 0 = (none, 0)) ∧
    ((0 : Nat) < 1 →
      PostgresParallelStateNext 1 1000 0 =
        (some (0, if 1 ≤ 0 + 1000 then POSTGRES_TID_MAX else 0 + 1000), 0 + 1000)) ∧
    (PostgresParallelStateNext 1 1000 0 = (some (0, POSTGRES_TID_MAX), 1000) ∧
      ∀ n, 1 ≤ n → PostgresParallelStateNext 1 1000 n = (none, n)) :=
  C9_next_task 1 1000 0 (by decide) (by decide)

/-- C10: a DECIMAL field payload shorter than 8 bytes is rejected with
the explicit InvalidInputException, and the result does not depend on
the payload bytes at all — no header word is read first. -/
theorem C10_decimal_guard (value_len : Int) (bs bs2 : List Nat) (h : value_len < 8) :
    processDecimalValue value_len bs = .error .decimalTooShort ∧
    processDecimalValue value_len bs = processDecimalValue value_len bs2 := by
  constructor <;> simp [processDecimalValue, h]

/-- C10 witness: a 7-byte payload is rejected whatever its bytes. -/
theorem C10_witness :
    processDecimalValue 7 [1,2,3,4,5,6,7] = .error .decimalTooShort ∧
    processDecimalValue 7 [1,2,3,4,5,6,7] = processDecimalValue 7 [9,9,9,9,9,9,9] :=
  C10_decimal_guard 7 [1,2,3,4,5,6,7] [9,9,9,9,9,9,9] (by decide)

end PostgresScanner
